import Mathlib

/-!
Verification development for the m-lab etl NDT pipeline.

The definitions below are a shallow embedding of the Go sources:
- the NDT test correlator `ParseAndInsert` / `handleAnomalies` / `processTest` /
  `getAndInsertValues` / `fixValues` (src/unnamed/part_003, the current revision
  of the NDT parser, embedded in namespace `NDT`);
- the previous revision of the same file (src/unnamed/part_004, which attaches
  an `anomolies` sub-record carrying the `no_meta` flag and `num_snaps` to each
  row, embedded in namespace `NDT4`);
- the parts of the external `schema` and `web100` packages that the correlator
  calls but that are not part of the sources (value maps, the snaplog decoder,
  the meta-file decoder, the variable field codec) are modelled from the spec,
  each marked `Modelled from the spec:` in its doc comment.

Bytes are `Nat` (each byte reduced mod 256 where its value matters), machine
integers are `Int`, Go `nil` pointers are `Option`, and the side effects of the
correlator (metric increments, rows handed to the inserter) are reified as a
trace of `Effect` values.
-/

namespace Etl

/-- Modelled from the spec: the external value-sink values (§3 ValueSink,
`SetInt64`/`SetString`/`SetBool`, plus BigQuery null and nested sub-records).
The `schema.Web100ValueMap` type is not under src/, only its callers are. -/
inductive BQValue where
  | i64 (v : Int)
  | str (s : String)
  | bval (b : Bool)
  | null
  | vmap (entries : List (String × BQValue))

/-- A value map is an ordered list of key/value entries with unique keys
(last write wins on collision, per §3). -/
abbrev ValueMap := List (String × BQValue)

/-- Modelled from the spec: lookup of a single key in a value map. -/
def vmLookup : ValueMap → String → Option BQValue
  | [], _ => none
  | (k, v) :: rest, key => if k = key then some v else vmLookup rest key

/-- Modelled from the spec: setting a single key in a value map
(replace an existing entry, else append). -/
def vmSet : ValueMap → String → BQValue → ValueMap
  | [], key, v => [(key, v)]
  | (k, w) :: rest, key, v =>
    if k = key then (k, v) :: rest else (k, w) :: vmSet rest key v

/-- Modelled from the spec: lookup of a dotted path through nested sub-records
(schema.Web100ValueMap.GetMap / GetInt64 / GetString navigation). -/
def getPath (path : List String) (m : ValueMap) : Option BQValue :=
  match path with
  | [] => some (BQValue.vmap m)
  | [k] => vmLookup m k
  | k :: rest =>
    match vmLookup m k with
    | some (BQValue.vmap sub) => getPath rest sub
    | _ => none

/-- Modelled from the spec: setting a value at a dotted path; intermediate
sub-records must already exist (the rows built by the correlator always
contain them), the final key is created if absent. -/
def setPath (path : List String) (v : BQValue) (m : ValueMap) : ValueMap :=
  match path with
  | [] => m
  | [k] => vmSet m k v
  | k :: rest =>
    match vmLookup m k with
    | some (BQValue.vmap sub) => vmSet m k (BQValue.vmap (setPath rest v sub))
    | _ => m

/-- Modelled from the spec: a field is unset when it is absent or null
(the `EmptyConnectionSpec` record pre-creates its fields as null, and §4.5
backfills "only if the corresponding ... field is still unset"). -/
def pathUnset (path : List String) (m : ValueMap) : Bool :=
  match getPath path m with
  | none => true
  | some BQValue.null => true
  | some _ => false

/-- Modelled from the spec: `schema.Web100ValueMap.SubstituteString`.  With
`onlyIfNull = false` the target is overwritten whenever the source string is
present ("unconditionally copy ... unless the snapshot value is absent",
§4.5); with `onlyIfNull = true` the target is written only when it is still
unset. -/
def substituteString (onlyIfNull : Bool) (tgt src : List String) (m : ValueMap) : ValueMap :=
  match getPath src m with
  | some (BQValue.str s) =>
    if onlyIfNull && !(pathUnset tgt m) then m else setPath tgt (BQValue.str s) m
  | _ => m

/-- Modelled from the spec: `schema.Web100ValueMap.SubstituteInt64`, the
integer twin of `substituteString`. -/
def substituteInt64 (onlyIfNull : Bool) (tgt src : List String) (m : ValueMap) : ValueMap :=
  match getPath src m with
  | some (BQValue.i64 v) =>
    if onlyIfNull && !(pathUnset tgt m) then m else setPath tgt (BQValue.i64 v) m
  | _ => m

/-- The first block of `fixValues` (src/unnamed/part_003 lines 438-444,
identical in part_004): always substitute the snapshot-level local/remote
address and address family into the log-entry connection spec, unless the
snapshot value is missing.  The Go code obtains the `web100_log_entry` and
`snap` sub-records by reference via `GetMap` and mutates them in place; here
the same updates are written with full paths from the row root, in the
source's order (innermost application first). -/
def fixLogEntry (r : ValueMap) : ValueMap :=
  substituteInt64 false
    ["web100_log_entry", "connection_spec", "local_af"]
    ["web100_log_entry", "snap", "LocalAddressType"]
    (substituteString false
      ["web100_log_entry", "connection_spec", "remote_ip"]
      ["web100_log_entry", "snap", "RemAddress"]
      (substituteString false
        ["web100_log_entry", "connection_spec", "local_ip"]
        ["web100_log_entry", "snap", "LocalAddress"] r))

/-- The second block of `fixValues` (src/unnamed/part_003 lines 446-454):
backfill the top-level server/client connection-spec fields from the
log-entry connection spec, only when they are still unset, in the source's
order (innermost application first). -/
def fixBackfill (r : ValueMap) : ValueMap :=
  substituteInt64 true
    ["connection_spec", "client_af"]
    ["web100_log_entry", "connection_spec", "local_af"]
    (substituteString true
      ["connection_spec", "client_ip"]
      ["web100_log_entry", "connection_spec", "remote_ip"]
      (substituteInt64 true
        ["connection_spec", "server_af"]
        ["web100_log_entry", "connection_spec", "local_af"]
        (substituteString true
          ["connection_spec", "server_ip"]
          ["web100_log_entry", "connection_spec", "local_ip"] r)))

/-- The last block of `fixValues` (src/unnamed/part_003 lines 456-465):
combine `StartTimeStamp` with `StartTimeUsec` into one microsecond-resolution
integer, when the snapshot carries a `StartTimeStamp`. -/
def fixStart (r : ValueMap) : ValueMap :=
  match getPath ["web100_log_entry", "snap", "StartTimeStamp"] r with
  | some (BQValue.i64 start) =>
    let start := 1000000 * start
    let start :=
      match getPath ["web100_log_entry", "snap", "StartTimeUsec"] r with
      | some (BQValue.i64 usec) => start + usec
      | _ => start
    setPath ["web100_log_entry", "snap", "StartTimeStamp"] (BQValue.i64 start) r
  | _ => r

/-- `fixValues` (src/unnamed/part_003 lines 435-469, identical in part_004
lines 500-534): the three blocks above in the source's order. -/
def fixValues (r : ValueMap) : ValueMap :=
  fixStart (fixBackfill (fixLogEntry r))

/-- An optional entry of a value map: absent when the argument is `none`. -/
def optEntry (k : String) : Option BQValue → ValueMap
  | none => []
  | some v => [(k, v)]

/-- A null-defaulted entry, the shape `EmptyConnectionSpec` gives the four
server/client fields before the meta record populates them. -/
def nullEntry (k : String) : Option BQValue → ValueMap
  | none => [(k, BQValue.null)]
  | some v => [(k, v)]

/-- A row of the shape built by `getAndInsertValues`: a `web100_log_entry`
sub-record holding the decoded snapshot (`snap`) and the log connection spec,
and the top-level `connection_spec` populated (or not) from the meta file.
Fields given as `none` are absent in `snap` and the log connection spec, and
null in the top-level connection spec. -/
def mkTestRow (snapLA snapRA : Option String) (snapLAT : Option Int)
    (snapTS snapUS : Option Int)
    (leLIP leRIP : Option String) (leLAF : Option Int)
    (sip : Option String) (saf : Option Int)
    (cip : Option String) (caf : Option Int) : ValueMap :=
  [("web100_log_entry", BQValue.vmap (
      [("connection_spec", BQValue.vmap (
          optEntry "local_ip" (leLIP.map BQValue.str) ++
          optEntry "remote_ip" (leRIP.map BQValue.str) ++
          optEntry "local_af" (leLAF.map BQValue.i64))),
       ("snap", BQValue.vmap (
          optEntry "LocalAddress" (snapLA.map BQValue.str) ++
          optEntry "RemAddress" (snapRA.map BQValue.str) ++
          optEntry "LocalAddressType" (snapLAT.map BQValue.i64) ++
          optEntry "StartTimeStamp" (snapTS.map BQValue.i64) ++
          optEntry "StartTimeUsec" (snapUS.map BQValue.i64)))])),
   ("connection_spec", BQValue.vmap (
      nullEntry "server_ip" (sip.map BQValue.str) ++
      nullEntry "server_af" (saf.map BQValue.i64) ++
      nullEntry "client_ip" (cip.map BQValue.str) ++
      nullEntry "client_af" (caf.map BQValue.i64)))]

/-- Modelled from the spec: the little-endian unsigned value of a byte
window (§4.2, integer types decode as little-endian); the first byte is the
least significant. -/
def leUnsigned (window : List Nat) : Nat :=
  window.foldr (fun b acc => acc * 256 + b % 256) 0

/-- Modelled from the spec: the `web100` FieldCodec for the signed
`INTEGER32` type is not under src/ (only `web100_test.go` is).  Per §4.2 a
4-byte window decodes little-endian with sign interpretation; a window of the
wrong width fails structurally. -/
def decodeINTEGER32 (window : List Nat) : Option Int :=
  if window.length = 4 then
    let u := leUnsigned window
    some (if u < 2 ^ 31 then (u : Int) else (u : Int) - 2 ^ 32)
  else none

/-! ## The NDT test correlator -/

/-- `strings.HasSuffix`, written over the character list so that concrete
instances reduce in the kernel. -/
def hasSuffix (s pat : String) : Bool :=
  pat.data.isSuffixOf s.data

/-- The decoded meta-file record.  Only the `TestName` field is observable in
the correlator sources (`&MetaFileData\x7b\x7d` placeholders leave it empty, and
part_004 keys its `no_meta` anomaly flag on it); the connection-spec fields it
carries are populated into the row by `PopulateConnSpec`, outside the embedded
fragment. -/
structure MetaFileData where
  TestName : String := ""
deriving DecidableEq

/-- `testInfo` from `ParseNDTFileName` (src/unnamed/part_003 lines 58-66).
The parsed `Timestamp` only feeds the row's `log_time` and is omitted. -/
structure TestInfo where
  dateDir : String := ""
  date : String := ""
  time : String
  address : String := ""
  suffix : String
deriving DecidableEq

/-- `fileInfoAndData` (src/unnamed/part_003 lines 97-101). -/
structure FileInfoAndData where
  fn : String
  info : TestInfo
  data : List Nat
deriving DecidableEq

/-- Modelled from the spec: the external `web100` snaplog decoder (§4.3) is
not under src/.  A decoder summarises `NewSnapLog` + snapshot walking +
`SnapshotValues` over a raw payload: `none` when any of those steps fails,
`some snapCount` when the payload decodes with `snapCount` snapshots. -/
structure Decoder where
  decode : List Nat → Option Nat

/-- Modelled from the spec: `ProcessMetaFile` (the sidecar text decoder) is
not under src/; per §4.5 the meta case decodes the content into a MetaRecord.
Its test name is the meta file's name, which is never empty for a decoded
record (placeholders synthesized by anomaly handling keep the empty name). -/
def processMetaFile (testName : String) (content : List Nat) : MetaFileData :=
  { TestName := testName }

/-- The correlator's mutable per-task state (the `NDTParser` fields of
src/unnamed/part_003 lines 103-113). -/
structure State where
  timestamp : String := ""
  c2s : Option FileInfoAndData := none
  s2c : Option FileInfoAndData := none
  metaFile : Option MetaFileData := none
deriving DecidableEq

namespace NDT

/-- A row handed to the inserter, restricted to the observables the claims
are about: `test_id`, the data direction, the snapshot index the decoded
values came from, and the test name of the meta record merged in. -/
structure Row where
  testId : String
  testType : String
  snapIndex : Int
  metaTestName : String
deriving DecidableEq

/-- The observable side effects of the part_003 correlator: metric counter
increments (`warn` = WarningCount, `errCount` = ErrorCount, `testCount` =
TestCount), a row-construction attempt (`processTest` running with a meta
record present), and a row handed to the inserter. -/
inductive Effect where
  | warn (slot reason : String)
  | errCount (slot reason : String)
  | testCount (slot reason : String)
  | attempt (testType fn metaTestName : String)
  | row (r : Row)
deriving DecidableEq

/-- `MAX_NUM_SNAPSHOTS` (src/unnamed/part_003 line 30). -/
def MAX_NUM_SNAPSHOTS : Int := 2800

/-- The final snapshot index selection of `getAndInsertValues`
(src/unnamed/part_003 lines 348-351):
`last := SnapCount() - 1; if last > MAX_NUM_SNAPSHOTS \x7b last = MAX_NUM_SNAPSHOTS \x7d`. -/
def finalSnapIndex (snapCount : Int) : Int :=
  let last := snapCount - 1
  if last > MAX_NUM_SNAPSHOTS then MAX_NUM_SNAPSHOTS else last

/-- `getAndInsertValues` (src/unnamed/part_003 lines 310-427): decode the
snaplog, select the final snapshot, build the row, insert it.  The decode
steps live in the external `web100` package and are summarised by `d`; a
snaplog with zero snapshots makes `Snapshot(-1)` fail, the
"final snapshot failure" path. -/
def getAndInsertValues (d : Decoder) (meta : MetaFileData) (test : FileInfoAndData)
    (testType : String) : List Effect :=
  match d.decode test.data with
  | none => [Effect.errCount testType "snaplog failure"]
  | some snapCount =>
    if snapCount = 0 then
      [Effect.errCount testType "final snapshot failure",
       Effect.testCount testType "final snapshot failure"]
    else
      [Effect.row { testId := test.fn, testType := testType,
                    snapIndex := finalSnapIndex (snapCount : Int),
                    metaTestName := meta.TestName },
       Effect.testCount testType "ok"]

/-- `processTest` (src/unnamed/part_003 lines 270-308): skip silently when no
meta record is present, reject payloads over 10 MiB, warn on small payloads,
then construct the row.  The `attempt` effect marks `processTest` running
with a meta record present. -/
def processTest (d : Decoder) (metaFile : Option MetaFileData) (test : FileInfoAndData)
    (testType : String) : List Effect :=
  match metaFile with
  | none => []
  | some meta =>
    Effect.attempt testType test.fn meta.TestName ::
    (if test.data.length > 10 * 1024 * 1024 then
      [Effect.errCount testType ">10MB"]
    else
      (if test.data.length < 16 * 1024 then [Effect.warn testType "<16KB"] else []) ++
      (if test.data.length = 4096 then [Effect.warn testType "4KB"] else []) ++
      getAndInsertValues d meta test testType)

/-- `handleAnomalies` (src/unnamed/part_003 lines 221-264), run on the old
context at rollover: with no meta buffered, synthesize an empty placeholder
and process the buffered data files against it; with a meta buffered, process
the buffered non-gzipped data files; count the empty combinations.  Returns
the meta record the parser field holds afterwards and the trace. -/
def handleAnomalies (d : Decoder) (s : State) : Option MetaFileData × List Effect :=
  match s.metaFile with
  | none =>
    let placeholder : MetaFileData := {}
    let t1 := match s.s2c with
      | some f => Effect.warn "s2c" "no meta" :: processTest d (some placeholder) f "s2c"
      | none => []
    let t2 := match s.c2s with
      | some f => Effect.warn "c2s" "no meta" :: processTest d (some placeholder) f "c2s"
      | none => []
    let t3 := match s.s2c, s.c2s with
      | none, none => [Effect.warn "test" "no meta,c2s,s2c"]
      | _, _ => []
    (some placeholder, t1 ++ t2 ++ t3)
  | some meta =>
    let t1 := match s.s2c with
      | some f =>
        if hasSuffix f.fn ".gz" then []
        else Effect.warn "s2c" "no .gz file" :: processTest d (some meta) f "s2c"
      | none => []
    let t2 := match s.c2s with
      | some f =>
        if hasSuffix f.fn ".gz" then []
        else Effect.warn "c2s" "no .gz file" :: processTest d (some meta) f "c2s"
      | none => []
    let t3 := match s.s2c, s.c2s with
      | none, none => [Effect.warn "meta" "no tests"]
      | _, _ => []
    (some meta, t1 ++ t2 ++ t3)

/-- The result of one `ParseAndInsert` call: the new parser state, the trace
of effects, and the error returned to the task loop. -/
structure StepOut where
  state : State
  trace : List Effect
  err : Option String
deriving DecidableEq

/-- `ParseAndInsert` (src/unnamed/part_003 lines 120-218) after a successful
`ParseNDTFileName` (`info` is the parse of `testName`): rollover when the
parsed time differs from the buffered timestamp, then route by suffix.  Data
files replace the buffered slot (collision-counted unless the two names
differ only by a trailing ".gz") and are processed immediately only when
gzipped and a meta record is buffered; a meta file replaces the buffered meta
record and processes both buffered data files; unknown suffixes return an
error after the rollover has already run. -/
def parseAndInsert (d : Decoder) (s0 : State) (taskFileName testName : String)
    (info : TestInfo) (content : List Nat) : StepOut :=
  let pre : List Effect × State :=
    if info.time = s0.timestamp then ([], s0)
    else ((handleAnomalies d s0).2,
          { timestamp := info.time, c2s := none, s2c := none, metaFile := none })
  let roll := pre.1
  let s := pre.2
  if info.suffix = "c2s_snaplog" then
    let collide := match s.c2s with
      | some prev =>
        if prev.fn ++ ".gz" = testName ∨ testName ++ ".gz" = prev.fn then []
        else [Effect.warn "c2s" "timestamp collision"]
      | none => []
    let incoming : FileInfoAndData := { fn := testName, info := info, data := content }
    let s1 : State := { s with c2s := some incoming }
    let proc :=
      if s1.metaFile.isSome ∧ hasSuffix testName ".gz" then
        processTest d s1.metaFile incoming "c2s"
      else []
    { state := s1, trace := roll ++ collide ++ proc, err := none }
  else if info.suffix = "s2c_snaplog" then
    let collide := match s.s2c with
      | some prev =>
        if prev.fn ++ ".gz" = testName ∨ testName ++ ".gz" = prev.fn then []
        else [Effect.warn "s2c" "timestamp collision"]
      | none => []
    let incoming : FileInfoAndData := { fn := testName, info := info, data := content }
    let s1 : State := { s with s2c := some incoming }
    let proc :=
      if s1.metaFile.isSome ∧ hasSuffix testName ".gz" then
        processTest d s1.metaFile incoming "s2c"
      else []
    { state := s1, trace := roll ++ collide ++ proc, err := none }
  else if info.suffix = "meta" then
    let collide := match s.metaFile with
      | some _ => [Effect.warn "meta" "timestamp collision"]
      | none => []
    let meta := processMetaFile testName content
    let s1 : State := { s with metaFile := some meta }
    let p1 := match s1.c2s with
      | some f => processTest d (some meta) f "c2s"
      | none => []
    let p2 := match s1.s2c with
      | some f => processTest d (some meta) f "s2c"
      | none => []
    { state := s1, trace := roll ++ collide ++ p1 ++ p2, err := none }
  else if info.suffix = "c2s_ndttrace" then
    { state := s, trace := roll, err := none }
  else if info.suffix = "s2c_ndttrace" then
    { state := s, trace := roll, err := none }
  else if info.suffix = "cputime" then
    { state := s, trace := roll, err := none }
  else
    { state := s, trace := roll ++ [Effect.testCount "unknown" "unknown suffix"],
      err := some ("Unknown test suffix: " ++ info.suffix) }

/-- The rows of a trace. -/
def rowsOf (t : List Effect) : List Row :=
  t.filterMap fun e =>
    match e with
    | Effect.row r => some r
    | _ => none

/-- The row-construction attempts of a trace. -/
def attemptsOf (t : List Effect) : List (String × String × String) :=
  t.filterMap fun e =>
    match e with
    | Effect.attempt ty fn m => some (ty, fn, m)
    | _ => none

end NDT

namespace NDT4

/-- A row handed to the inserter by the part_004 revision, restricted to the
claims' observables: `test_id`, the data direction, and the `anomolies`
sub-record fields `no_meta` (set when the meta record's test name is empty,
src/unnamed/part_004 lines 456-459) and `num_snaps` (set when the snapshot
count is not 2000, lines 470-472). -/
structure Row where
  testId : String
  testType : String
  noMeta : Bool
  numSnaps : Option Int
deriving DecidableEq

/-- The observable side effects of the part_004 correlator: `TestCount` /
`FunnyTests` metric increments and rows handed to the inserter. -/
inductive Effect where
  | testCount (slot reason : String)
  | funny (slot reason : String)
  | row (r : Row)
deriving DecidableEq

/-- `getAndInsertValues` of the part_004 revision (lines 408-492), reached
with the snapshot count from `seek`: build the row, attach the `anomolies`
sub-record, insert. -/
def getAndInsertValues (meta : MetaFileData) (snapCount : Nat) (test : FileInfoAndData)
    (testType : String) : List Effect :=
  [Effect.row { testId := test.fn, testType := testType,
                noMeta := meta.TestName = "",
                numSnaps := if snapCount = 2000 then none else some (snapCount : Int) },
   Effect.testCount testType "ok"]

/-- `processTest` of the part_004 revision (lines 237-363): skip silently
when no meta record is present, reject payloads over 10 MiB, warn on small
payloads, then decode (schema asset, definitions, tmpfile, `web100.Open`,
`seek`, `SnapshotValues` — all external `web100` steps summarised by `d`) and
insert the row. -/
def processTest (d : Decoder) (metaFile : Option MetaFileData) (test : FileInfoAndData)
    (testType : String) : List Effect :=
  match metaFile with
  | none => []
  | some meta =>
    if test.data.length > 10 * 1024 * 1024 then
      [Effect.funny testType ">10MB", Effect.testCount testType ">10MB"]
    else
      (if test.data.length < 16 * 1024 then [Effect.funny testType "<16KB"] else []) ++
      (if test.data.length = 4096 then [Effect.funny testType "4KB"] else []) ++
      match d.decode test.data with
      | none => [Effect.testCount testType "decode failure"]
      | some snapCount => getAndInsertValues meta snapCount test testType

/-- `handleAnomolies` of the part_004 revision (lines 198-231): with no meta
buffered, synthesize an empty placeholder and process the buffered data files
against it; with a meta buffered and no data file, count "no tests"; in any
other case do nothing. -/
def handleAnomolies (d : Decoder) (s : State) : Option MetaFileData × List Effect :=
  match s.metaFile with
  | none =>
    let placeholder : MetaFileData := {}
    let t1 := match s.s2c with
      | some f => Effect.testCount "s2c" "no meta" :: processTest d (some placeholder) f "s2c"
      | none => []
    let t2 := match s.c2s with
      | some f => Effect.testCount "c2s" "no meta" :: processTest d (some placeholder) f "c2s"
      | none => []
    let t3 := match s.s2c, s.c2s with
      | none, none => [Effect.testCount "test" "no meta,c2s,s2c"]
      | _, _ => []
    (some placeholder, t1 ++ t2 ++ t3)
  | some meta =>
    let t3 := match s.s2c, s.c2s with
      | none, none => [Effect.testCount "meta" "no tests"]
      | _, _ => []
    (some meta, t3)

/-- The result of one part_004 `ParseAndInsert` call. -/
structure StepOut where
  state : State
  trace : List Effect
  err : Option String
deriving DecidableEq

/-- `ParseAndInsert` of the part_004 revision (lines 119-195) after a
successful `ParseNDTFileName`: rollover when the parsed time differs from
the buffered timestamp, then route by suffix.  Unlike part_003, an incoming
data file is always collision-counted when its slot is occupied and is
always processed immediately (no ".gz" conditions). -/
def parseAndInsert (d : Decoder) (s0 : State) (taskFileName testName : String)
    (info : TestInfo) (content : List Nat) : StepOut :=
  let pre : List Effect × State :=
    if info.time = s0.timestamp then ([], s0)
    else ((handleAnomolies d s0).2,
          { timestamp := info.time, c2s := none, s2c := none, metaFile := none })
  let roll := pre.1
  let s := pre.2
  if info.suffix = "c2s_snaplog" then
    let collide := match s.c2s with
      | some _ => [Effect.testCount "c2s" "timestamp collision"]
      | none => []
    let incoming : FileInfoAndData := { fn := testName, info := info, data := content }
    let s1 : State := { s with c2s := some incoming }
    { state := s1, trace := roll ++ collide ++ processTest d s1.metaFile incoming "c2s",
      err := none }
  else if info.suffix = "s2c_snaplog" then
    let collide := match s.s2c with
      | some _ => [Effect.testCount "s2c" "timestamp collision"]
      | none => []
    let incoming : FileInfoAndData := { fn := testName, info := info, data := content }
    let s1 : State := { s with s2c := some incoming }
    { state := s1, trace := roll ++ collide ++ processTest d s1.metaFile incoming "s2c",
      err := none }
  else if info.suffix = "meta" then
    let collide := match s.metaFile with
      | some _ => [Effect.testCount "meta" "timestamp collision"]
      | none => []
    let meta := processMetaFile testName content
    let s1 : State := { s with metaFile := some meta }
    let p1 := match s1.c2s with
      | some f => processTest d (some meta) f "c2s"
      | none => []
    let p2 := match s1.s2c with
      | some f => processTest d (some meta) f "s2c"
      | none => []
    { state := s1, trace := roll ++ collide ++ p1 ++ p2, err := none }
  else if info.suffix = "c2s_ndttrace" then
    { state := s, trace := roll, err := none }
  else if info.suffix = "s2c_ndttrace" then
    { state := s, trace := roll, err := none }
  else if info.suffix = "cputime" then
    { state := s, trace := roll, err := none }
  else
    { state := s, trace := roll ++ [Effect.testCount "unknown" info.suffix],
      err := some ("Unknown test suffix: " ++ info.suffix) }

/-- The rows of a trace. -/
def rowsOf (t : List Effect) : List Row :=
  t.filterMap fun e =>
    match e with
    | Effect.row r => some r
    | _ => none

end NDT4

/-! ## Helper lemmas -/

/-- `getAndInsertValues` never increments a WarningCount metric. -/
theorem not_warn_mem_getAndInsertValues (d : Decoder) (meta : MetaFileData)
    (test : FileInfoAndData) (ty slot reason : String) :
    NDT.Effect.warn slot reason ∉ NDT.getAndInsertValues d meta test ty := by
  unfold NDT.getAndInsertValues
  split
  · simp
  · split <;> simp

/-- The only WarningCount reasons `processTest` can produce are the two
small-payload warnings; in particular no collision warning comes from it. -/
theorem not_collision_warn_mem_processTest (d : Decoder) (mf : Option MetaFileData)
    (test : FileInfoAndData) (ty slot : String) :
    NDT.Effect.warn slot "timestamp collision" ∉ NDT.processTest d mf test ty := by
  cases mf with
  | none => simp [NDT.processTest]
  | some meta =>
    simp only [NDT.processTest, List.mem_cons, List.mem_append]
    intro h
    rcases h with h | h
    · exact absurd h (by simp)
    · revert h
      split_ifs <;>
        simp [not_warn_mem_getAndInsertValues]

/-- `processTest` with a buffered meta record always records the
row-construction attempt. -/
theorem attempt_mem_processTest (d : Decoder) (meta : MetaFileData)
    (test : FileInfoAndData) (ty : String) :
    NDT.Effect.attempt ty test.fn meta.TestName ∈ NDT.processTest d (some meta) test ty := by
  simp [NDT.processTest]

/-- `getAndInsertValues` never produces the ">10MB" error reason. -/
theorem not_big_errCount_mem_getAndInsertValues (d : Decoder) (meta : MetaFileData)
    (test : FileInfoAndData) (ty slot : String) :
    NDT.Effect.errCount slot ">10MB" ∉ NDT.getAndInsertValues d meta test ty := by
  unfold NDT.getAndInsertValues
  split
  · simp
  · split <;> simp

/-- `NDT4.rowsOf` distributes over list append. -/
theorem rowsOf4_append (a b : List NDT4.Effect) :
    NDT4.rowsOf (a ++ b) = NDT4.rowsOf a ++ NDT4.rowsOf b := by
  simp [NDT4.rowsOf]

/-- A TestCount increment contributes no row. -/
theorem rowsOf4_testCount_cons (s r : String) (t : List NDT4.Effect) :
    NDT4.rowsOf (NDT4.Effect.testCount s r :: t) = NDT4.rowsOf t := by
  simp [NDT4.rowsOf]

/-- The empty trace holds no row. -/
theorem rowsOf4_nil : NDT4.rowsOf [] = [] := rfl

/-- `processTest` of the part_004 revision emits no row when no meta record
is present. -/
theorem rowsOf4_processTest_none (d : Decoder) (test : FileInfoAndData) (ty : String) :
    NDT4.rowsOf (NDT4.processTest d none test ty) = [] := rfl

/-- Every row the part_004 `processTest` emits carries the `no_meta` flag
exactly when the meta record it ran against has an empty test name. -/
theorem rows_processTest4_noMeta (d : Decoder) (meta : MetaFileData)
    (test : FileInfoAndData) (ty : String) :
    ∀ r ∈ NDT4.rowsOf (NDT4.processTest d (some meta) test ty),
      r.noMeta = decide (meta.TestName = "") := by
  intro r hr
  revert hr
  unfold NDT4.processTest
  split_ifs <;> cases hd : d.decode test.data <;>
    simp [NDT4.rowsOf, NDT4.getAndInsertValues, hd]
  all_goals (intro h; subst h; rfl)

/-- An `attempt` effect never comes from a collision counter list. -/
theorem not_attempt_mem_collide (prev : FileInfoAndData) (tn ty fn m slot : String) :
    NDT.Effect.attempt ty fn m ∉
      (if prev.fn ++ ".gz" = tn ∨ tn ++ ".gz" = prev.fn then ([] : List NDT.Effect)
       else [NDT.Effect.warn slot "timestamp collision"]) := by
  split <;> simp

/-! ## Claim theorems -/

/-- Claim C7: a 4-byte INTEGER32 field decodes little-endian with sign
interpretation: the byte window [0x01,0x02,0x03,0x04] decodes to 67305985,
and the byte window [0xFF,0xFF,0xFF,0xFF] decodes to -1, not 4294967295. -/
theorem integer32_decodes_signed_little_endian :
    decodeINTEGER32 [1, 2, 3, 4] = some 67305985 ∧
    decodeINTEGER32 [255, 255, 255, 255] = some (-1) ∧
    decodeINTEGER32 [255, 255, 255, 255] ≠ some 4294967295 := by
  decide

/-- Claim C1, evaluated at the failing input: the final snapshot index
selection of `getAndInsertValues` caps at `MAX_NUM_SNAPSHOTS`, not
`MAX_NUM_SNAPSHOTS - 1`.  For an accepted payload with 5000 snapshots the
emitted row decodes snapshot index 2800, while the claimed index
`min(snapshotCount - 1, MAX_SNAPSHOTS - 1)` is 2799. -/
theorem final_snapshot_index_exceeds_cap :
    NDT.finalSnapIndex 5000 = 2800 ∧
    NDT.rowsOf (NDT.getAndInsertValues ⟨fun _ => some 5000⟩ ⟨"mfile"⟩
        ⟨"f.c2s_snaplog.gz", ⟨"", "", "t1", "", "c2s_snaplog"⟩, [0]⟩ "c2s") =
      [⟨"f.c2s_snaplog.gz", "c2s", 2800, "mfile"⟩] ∧
    ((2800 : Int) = min (5000 - 1) (NDT.MAX_NUM_SNAPSHOTS - 1) → False) := by
  refine ⟨by decide, by decide, by decide⟩

/-- Claim C4: during `fixValues`, each of server_ip, server_af, client_ip,
client_af in the top-level connection spec is backfilled only when still
unset, sourced respectively from the log-entry connection-spec local_ip,
local_af, remote_ip and local_af (client_af from the local address family,
not the remote one); fields already set are left unchanged. -/
theorem fixValues_backfills_only_unset_from_log_entry
    (lip rip : String) (laf : Int) (sip cip : String) (saf caf : Int) :
    (getPath ["connection_spec", "server_ip"]
        (fixValues (mkTestRow none none none none none
          (some lip) (some rip) (some laf) none none none none)) =
        some (BQValue.str lip) ∧
     getPath ["connection_spec", "server_af"]
        (fixValues (mkTestRow none none none none none
          (some lip) (some rip) (some laf) none none none none)) =
        some (BQValue.i64 laf) ∧
     getPath ["connection_spec", "client_ip"]
        (fixValues (mkTestRow none none none none none
          (some lip) (some rip) (some laf) none none none none)) =
        some (BQValue.str rip) ∧
     getPath ["connection_spec", "client_af"]
        (fixValues (mkTestRow none none none none none
          (some lip) (some rip) (some laf) none none none none)) =
        some (BQValue.i64 laf)) ∧
    (getPath ["connection_spec", "server_ip"]
        (fixValues (mkTestRow none none none none none
          (some lip) (some rip) (some laf) (some sip) (some saf) (some cip) (some caf))) =
        some (BQValue.str sip) ∧
     getPath ["connection_spec", "server_af"]
        (fixValues (mkTestRow none none none none none
          (some lip) (some rip) (some laf) (some sip) (some saf) (some cip) (some caf))) =
        some (BQValue.i64 saf) ∧
     getPath ["connection_spec", "client_ip"]
        (fixValues (mkTestRow none none none none none
          (some lip) (some rip) (some laf) (some sip) (some saf) (some cip) (some caf))) =
        some (BQValue.str cip) ∧
     getPath ["connection_spec", "client_af"]
        (fixValues (mkTestRow none none none none none
          (some lip) (some rip) (some laf) (some sip) (some saf) (some cip) (some caf))) =
        some (BQValue.i64 caf)) := by
  have e1 : fixLogEntry (mkTestRow none none none none none
      (some lip) (some rip) (some laf) none none none none) =
      [("web100_log_entry", BQValue.vmap [("connection_spec", BQValue.vmap
          [("local_ip", BQValue.str lip), ("remote_ip", BQValue.str rip),
           ("local_af", BQValue.i64 laf)]), ("snap", BQValue.vmap [])]),
       ("connection_spec", BQValue.vmap
          [("server_ip", BQValue.null), ("server_af", BQValue.null),
           ("client_ip", BQValue.null), ("client_af", BQValue.null)])] := rfl
  have e2 : fixBackfill
      [("web100_log_entry", BQValue.vmap [("connection_spec", BQValue.vmap
          [("local_ip", BQValue.str lip), ("remote_ip", BQValue.str rip),
           ("local_af", BQValue.i64 laf)]), ("snap", BQValue.vmap [])]),
       ("connection_spec", BQValue.vmap
          [("server_ip", BQValue.null), ("server_af", BQValue.null),
           ("client_ip", BQValue.null), ("client_af", BQValue.null)])] =
      [("web100_log_entry", BQValue.vmap [("connection_spec", BQValue.vmap
          [("local_ip", BQValue.str lip), ("remote_ip", BQValue.str rip),
           ("local_af", BQValue.i64 laf)]), ("snap", BQValue.vmap [])]),
       ("connection_spec", BQValue.vmap
          [("server_ip", BQValue.str lip), ("server_af", BQValue.i64 laf),
           ("client_ip", BQValue.str rip), ("client_af", BQValue.i64 laf)])] := rfl
  have e3 : fixStart
      [("web100_log_entry", BQValue.vmap [("connection_spec", BQValue.vmap
          [("local_ip", BQValue.str lip), ("remote_ip", BQValue.str rip),
           ("local_af", BQValue.i64 laf)]), ("snap", BQValue.vmap [])]),
       ("connection_spec", BQValue.vmap
          [("server_ip", BQValue.str lip), ("server_af", BQValue.i64 laf),
           ("client_ip", BQValue.str rip), ("client_af", BQValue.i64 laf)])] =
      [("web100_log_entry", BQValue.vmap [("connection_spec", BQValue.vmap
          [("local_ip", BQValue.str lip), ("remote_ip", BQValue.str rip),
           ("local_af", BQValue.i64 laf)]), ("snap", BQValue.vmap [])]),
       ("connection_spec", BQValue.vmap
          [("server_ip", BQValue.str lip), ("server_af", BQValue.i64 laf),
           ("client_ip", BQValue.str rip), ("client_af", BQValue.i64 laf)])] := rfl
  have eA : fixValues (mkTestRow none none none none none
      (some lip) (some rip) (some laf) none none none none) =
      [("web100_log_entry", BQValue.vmap [("connection_spec", BQValue.vmap
          [("local_ip", BQValue.str lip), ("remote_ip", BQValue.str rip),
           ("local_af", BQValue.i64 laf)]), ("snap", BQValue.vmap [])]),
       ("connection_spec", BQValue.vmap
          [("server_ip", BQValue.str lip), ("server_af", BQValue.i64 laf),
           ("client_ip", BQValue.str rip), ("client_af", BQValue.i64 laf)])] := by
    rw [fixValues, e1, e2, e3]
  have f1 : fixLogEntry (mkTestRow none none none none none
      (some lip) (some rip) (some laf) (some sip) (some saf) (some cip) (some caf)) =
      [("web100_log_entry", BQValue.vmap [("connection_spec", BQValue.vmap
          [("local_ip", BQValue.str lip), ("remote_ip", BQValue.str rip),
           ("local_af", BQValue.i64 laf)]), ("snap", BQValue.vmap [])]),
       ("connection_spec", BQValue.vmap
          [("server_ip", BQValue.str sip), ("server_af", BQValue.i64 saf),
           ("client_ip", BQValue.str cip), ("client_af", BQValue.i64 caf)])] := rfl
  have f2 : fixBackfill
      [("web100_log_entry", BQValue.vmap [("connection_spec", BQValue.vmap
          [("local_ip", BQValue.str lip), ("remote_ip", BQValue.str rip),
           ("local_af", BQValue.i64 laf)]), ("snap", BQValue.vmap [])]),
       ("connection_spec", BQValue.vmap
          [("server_ip", BQValue.str sip), ("server_af", BQValue.i64 saf),
           ("client_ip", BQValue.str cip), ("client_af", BQValue.i64 caf)])] =
      [("web100_log_entry", BQValue.vmap [("connection_spec", BQValue.vmap
          [("local_ip", BQValue.str lip), ("remote_ip", BQValue.str rip),
           ("local_af", BQValue.i64 laf)]), ("snap", BQValue.vmap [])]),
       ("connection_spec", BQValue.vmap
          [("server_ip", BQValue.str sip), ("server_af", BQValue.i64 saf),
           ("client_ip", BQValue.str cip), ("client_af", BQValue.i64 caf)])] := rfl
  have f3 : fixStart
      [("web100_log_entry", BQValue.vmap [("connection_spec", BQValue.vmap
          [("local_ip", BQValue.str lip), ("remote_ip", BQValue.str rip),
           ("local_af", BQValue.i64 laf)]), ("snap", BQValue.vmap [])]),
       ("connection_spec", BQValue.vmap
          [("server_ip", BQValue.str sip), ("server_af", BQValue.i64 saf),
           ("client_ip", BQValue.str cip), ("client_af", BQValue.i64 caf)])] =
      [("web100_log_entry", BQValue.vmap [("connection_spec", BQValue.vmap
          [("local_ip", BQValue.str lip), ("remote_ip", BQValue.str rip),
           ("local_af", BQValue.i64 laf)]), ("snap", BQValue.vmap [])]),
       ("connection_spec", BQValue.vmap
          [("server_ip", BQValue.str sip), ("server_af", BQValue.i64 saf),
           ("client_ip", BQValue.str cip), ("client_af", BQValue.i64 caf)])] := rfl
  have eB : fixValues (mkTestRow none none none none none
      (some lip) (some rip) (some laf) (some sip) (some saf) (some cip) (some caf)) =
      [("web100_log_entry", BQValue.vmap [("connection_spec", BQValue.vmap
          [("local_ip", BQValue.str lip), ("remote_ip", BQValue.str rip),
           ("local_af", BQValue.i64 laf)]), ("snap", BQValue.vmap [])]),
       ("connection_spec", BQValue.vmap
          [("server_ip", BQValue.str sip), ("server_af", BQValue.i64 saf),
           ("client_ip", BQValue.str cip), ("client_af", BQValue.i64 caf)])] := by
    rw [fixValues, f1, f2, f3]
  refine ⟨⟨?_, ?_, ?_, ?_⟩, ⟨?_, ?_, ?_, ?_⟩⟩
  case _ => rw [eA]; rfl
  case _ => rw [eA]; rfl
  case _ => rw [eA]; rfl
  case _ => rw [eA]; rfl
  case _ => rw [eB]; rfl
  case _ => rw [eB]; rfl
  case _ => rw [eB]; rfl
  case _ => rw [eB]; rfl

/-- Claim C8: during `fixValues`, a snapshot `StartTimeStamp` value is
replaced by the single microsecond-resolution integer
`start_seconds * 1_000_000 + start_micros`, combining the coarse seconds
field with its microsecond-remainder field `StartTimeUsec`. -/
theorem fixValues_combines_startTimeStamp_micros (s u : Int) :
    getPath ["web100_log_entry", "snap", "StartTimeStamp"]
      (fixValues (mkTestRow none none none (some s) (some u)
        none none none none none none none)) =
    some (BQValue.i64 (s * 1000000 + u)) := by
  have e1 : fixLogEntry (mkTestRow none none none (some s) (some u)
      none none none none none none none) =
      [("web100_log_entry", BQValue.vmap [("connection_spec", BQValue.vmap []),
        ("snap", BQValue.vmap [("StartTimeStamp", BQValue.i64 s),
                               ("StartTimeUsec", BQValue.i64 u)])]),
       ("connection_spec", BQValue.vmap
          [("server_ip", BQValue.null), ("server_af", BQValue.null),
           ("client_ip", BQValue.null), ("client_af", BQValue.null)])] := rfl
  have e2 : fixBackfill
      [("web100_log_entry", BQValue.vmap [("connection_spec", BQValue.vmap []),
        ("snap", BQValue.vmap [("StartTimeStamp", BQValue.i64 s),
                               ("StartTimeUsec", BQValue.i64 u)])]),
       ("connection_spec", BQValue.vmap
          [("server_ip", BQValue.null), ("server_af", BQValue.null),
           ("client_ip", BQValue.null), ("client_af", BQValue.null)])] =
      [("web100_log_entry", BQValue.vmap [("connection_spec", BQValue.vmap []),
        ("snap", BQValue.vmap [("StartTimeStamp", BQValue.i64 s),
                               ("StartTimeUsec", BQValue.i64 u)])]),
       ("connection_spec", BQValue.vmap
          [("server_ip", BQValue.null), ("server_af", BQValue.null),
           ("client_ip", BQValue.null), ("client_af", BQValue.null)])] := rfl
  have e3 : fixStart
      [("web100_log_entry", BQValue.vmap [("connection_spec", BQValue.vmap []),
        ("snap", BQValue.vmap [("StartTimeStamp", BQValue.i64 s),
                               ("StartTimeUsec", BQValue.i64 u)])]),
       ("connection_spec", BQValue.vmap
          [("server_ip", BQValue.null), ("server_af", BQValue.null),
           ("client_ip", BQValue.null), ("client_af", BQValue.null)])] =
      [("web100_log_entry", BQValue.vmap [("connection_spec", BQValue.vmap []),
        ("snap", BQValue.vmap [("StartTimeStamp", BQValue.i64 (1000000 * s + u)),
                               ("StartTimeUsec", BQValue.i64 u)])]),
       ("connection_spec", BQValue.vmap
          [("server_ip", BQValue.null), ("server_af", BQValue.null),
           ("client_ip", BQValue.null), ("client_af", BQValue.null)])] := rfl
  rw [fixValues, e1, e2, e3, Int.mul_comm s 1000000]
  rfl

/-- Claim C2, counterexample: a c2s_snaplog file whose parsed time matches
the buffered timestamp arrives while a meta record is buffered, yet nothing
is processed, because the incoming filename does not end in ".gz": the trace
of the step is empty (no row-construction attempt), refuting "with no further
condition on the incoming filename". -/
theorem nonGz_c2s_with_meta_not_processed :
    ({ timestamp := "10:00:00.0", c2s := none, s2c := none,
       metaFile := some ⟨"m0"⟩ } : State).metaFile.isSome = true ∧
    (NDT.parseAndInsert ⟨fun _ => some 3⟩
        { timestamp := "10:00:00.0", c2s := none, s2c := none, metaFile := some ⟨"m0"⟩ }
        "task.tgz" "20170509T10:00:00.0Z_h:1.c2s_snaplog"
        ⟨"", "20170509", "10:00:00.0", "h:1", "c2s_snaplog"⟩ [1, 2, 3]).trace = [] := by
  exact ⟨rfl, by decide⟩

/-- Claim C2 (amended): for an incoming c2s_snaplog or s2c_snaplog file
whose timestamp matches the current context and with a meta record buffered,
the test is processed immediately during that same file's handling if and
only if the incoming filename ends in ".gz". -/
theorem immediate_processing_iff_gz (d : Decoder) (s : State) (tf tn : String)
    (content : List Nat) (info : TestInfo) (m : MetaFileData)
    (hm : s.metaFile = some m) (ht : info.time = s.timestamp) :
    (info.suffix = "c2s_snaplog" →
      (NDT.Effect.attempt "c2s" tn m.TestName ∈
          (NDT.parseAndInsert d s tf tn info content).trace ↔
        hasSuffix tn ".gz" = true)) ∧
    (info.suffix = "s2c_snaplog" →
      (NDT.Effect.attempt "s2c" tn m.TestName ∈
          (NDT.parseAndInsert d s tf tn info content).trace ↔
        hasSuffix tn ".gz" = true)) := by
  obtain ⟨ts, c2s, s2c, mf⟩ := s
  simp only [State.timestamp] at ht
  simp only [State.metaFile] at hm
  subst hm
  constructor
  · intro hs
    by_cases hgz : hasSuffix tn ".gz" = true
    · simp only [NDT.parseAndInsert, ht, hs]
      cases c2s with
      | none =>
        simp [NDT.processTest, hgz]
      | some prev =>
        simp [hgz]
        exact attempt_mem_processTest d m ⟨tn, info, content⟩ "c2s"
    · simp only [NDT.parseAndInsert, ht, hs]
      cases c2s with
      | none => simp [hgz]
      | some prev => simp [hgz]
  · intro hs
    by_cases hgz : hasSuffix tn ".gz" = true
    · simp only [NDT.parseAndInsert, ht, hs]
      cases s2c with
      | none =>
        simp [NDT.processTest, hgz]
      | some prev =>
        simp [hgz]
        exact attempt_mem_processTest d m ⟨tn, info, content⟩ "s2c"
    · simp only [NDT.parseAndInsert, ht, hs]
      cases s2c with
      | none => simp [hgz]
      | some prev => simp [hgz]

/-- Claim C2 witness: at a concrete state with a buffered meta record, a
gzipped c2s file is processed immediately, and so is a gzipped s2c file. -/
theorem immediate_processing_iff_gz_witness :
    NDT.Effect.attempt "c2s" "20170509T10:00:00.0Z_h:1.c2s_snaplog.gz" "m0" ∈
      (NDT.parseAndInsert ⟨fun _ => some 3⟩
        { timestamp := "10:00:00.0", c2s := none, s2c := none, metaFile := some ⟨"m0"⟩ }
        "task.tgz" "20170509T10:00:00.0Z_h:1.c2s_snaplog.gz"
        ⟨"", "20170509", "10:00:00.0", "h:1", "c2s_snaplog"⟩ [1, 2, 3]).trace ∧
    NDT.Effect.attempt "s2c" "20170509T10:00:00.0Z_h:2.s2c_snaplog.gz" "m0" ∈
      (NDT.parseAndInsert ⟨fun _ => some 3⟩
        { timestamp := "10:00:00.0", c2s := none, s2c := none, metaFile := some ⟨"m0"⟩ }
        "task.tgz" "20170509T10:00:00.0Z_h:2.s2c_snaplog.gz"
        ⟨"", "20170509", "10:00:00.0", "h:2", "s2c_snaplog"⟩ [1, 2, 3]).trace :=
  ⟨((immediate_processing_iff_gz ⟨fun _ => some 3⟩
      { timestamp := "10:00:00.0", c2s := none, s2c := none, metaFile := some ⟨"m0"⟩ }
      "task.tgz" "20170509T10:00:00.0Z_h:1.c2s_snaplog.gz" [1, 2, 3]
      ⟨"", "20170509", "10:00:00.0", "h:1", "c2s_snaplog"⟩ ⟨"m0"⟩
      rfl rfl).1 rfl).mpr (by decide),
   ((immediate_processing_iff_gz ⟨fun _ => some 3⟩
      { timestamp := "10:00:00.0", c2s := none, s2c := none, metaFile := some ⟨"m0"⟩ }
      "task.tgz" "20170509T10:00:00.0Z_h:2.s2c_snaplog.gz" [1, 2, 3]
      ⟨"", "20170509", "10:00:00.0", "h:2", "s2c_snaplog"⟩ ⟨"m0"⟩
      rfl rfl).2 rfl).mpr (by decide)⟩

/-- Claim C5: when a c2s_snaplog or s2c_snaplog file arrives for the current
timestamp and its slot is already buffered, a collision is flagged exactly
when the two filenames do not differ only by a trailing ".gz"; in every case
the buffered slot is replaced by the incoming file. -/
theorem snaplog_collision_flag_and_replace (d : Decoder) (s : State) (tf tn : String)
    (content : List Nat) (info : TestInfo) (b bs : FileInfoAndData)
    (ht : info.time = s.timestamp) :
    (info.suffix = "c2s_snaplog" → s.c2s = some b →
      ((NDT.parseAndInsert d s tf tn info content).state.c2s =
          some { fn := tn, info := info, data := content } ∧
       (NDT.Effect.warn "c2s" "timestamp collision" ∈
          (NDT.parseAndInsert d s tf tn info content).trace ↔
        ¬ (b.fn ++ ".gz" = tn ∨ tn ++ ".gz" = b.fn)))) ∧
    (info.suffix = "s2c_snaplog" → s.s2c = some bs →
      ((NDT.parseAndInsert d s tf tn info content).state.s2c =
          some { fn := tn, info := info, data := content } ∧
       (NDT.Effect.warn "s2c" "timestamp collision" ∈
          (NDT.parseAndInsert d s tf tn info content).trace ↔
        ¬ (bs.fn ++ ".gz" = tn ∨ tn ++ ".gz" = bs.fn)))) := by
  obtain ⟨ts, c2s, s2c, mf⟩ := s
  simp only [State.timestamp] at ht
  constructor
  · intro hs hc
    simp only [State.c2s] at hc
    subst hc
    refine ⟨by simp [NDT.parseAndInsert, ht, hs], ?_⟩
    by_cases hcol : b.fn ++ ".gz" = tn ∨ tn ++ ".gz" = b.fn
    · simp only [NDT.parseAndInsert, ht, hs]
      simp [hcol]
      intro _ _
      exact not_collision_warn_mem_processTest d mf ⟨tn, info, content⟩ "c2s" "c2s"
    · simp only [NDT.parseAndInsert, ht, hs]
      simp [hcol]
  · intro hs hc
    simp only [State.s2c] at hc
    subst hc
    refine ⟨by simp [NDT.parseAndInsert, ht, hs], ?_⟩
    by_cases hcol : bs.fn ++ ".gz" = tn ∨ tn ++ ".gz" = bs.fn
    · simp only [NDT.parseAndInsert, ht, hs]
      simp [hcol]
      intro _ _
      exact not_collision_warn_mem_processTest d mf ⟨tn, info, content⟩ "s2c" "s2c"
    · simp only [NDT.parseAndInsert, ht, hs]
      simp [hcol]

/-- Claim C5 witness: a buffered non-matching c2s file collides with the
incoming one and is replaced. -/
theorem snaplog_collision_flag_and_replace_witness :
    (NDT.parseAndInsert ⟨fun _ => some 3⟩
        { timestamp := "10:00:00.0",
          c2s := some ⟨"other.c2s_snaplog", ⟨"", "", "10:00:00.0", "", "c2s_snaplog"⟩, []⟩,
          s2c := none, metaFile := none }
        "task.tgz" "20170509T10:00:00.0Z_h:1.c2s_snaplog"
        ⟨"", "20170509", "10:00:00.0", "h:1", "c2s_snaplog"⟩ [1, 2, 3]).state.c2s =
      some { fn := "20170509T10:00:00.0Z_h:1.c2s_snaplog",
             info := ⟨"", "20170509", "10:00:00.0", "h:1", "c2s_snaplog"⟩,
             data := [1, 2, 3] } ∧
    NDT.Effect.warn "c2s" "timestamp collision" ∈
      (NDT.parseAndInsert ⟨fun _ => some 3⟩
        { timestamp := "10:00:00.0",
          c2s := some ⟨"other.c2s_snaplog", ⟨"", "", "10:00:00.0", "", "c2s_snaplog"⟩, []⟩,
          s2c := none, metaFile := none }
        "task.tgz" "20170509T10:00:00.0Z_h:1.c2s_snaplog"
        ⟨"", "20170509", "10:00:00.0", "h:1", "c2s_snaplog"⟩ [1, 2, 3]).trace := by
  have h := (snaplog_collision_flag_and_replace ⟨fun _ => some 3⟩
    { timestamp := "10:00:00.0",
      c2s := some ⟨"other.c2s_snaplog", ⟨"", "", "10:00:00.0", "", "c2s_snaplog"⟩, []⟩,
      s2c := none, metaFile := none }
    "task.tgz" "20170509T10:00:00.0Z_h:1.c2s_snaplog" [1, 2, 3]
    ⟨"", "20170509", "10:00:00.0", "h:1", "c2s_snaplog"⟩
    ⟨"other.c2s_snaplog", ⟨"", "", "10:00:00.0", "", "c2s_snaplog"⟩, []⟩
    ⟨"other.c2s_snaplog", ⟨"", "", "10:00:00.0", "", "c2s_snaplog"⟩, []⟩
    rfl).1 rfl rfl
  exact ⟨h.1, h.2.mpr (by decide)⟩

/-- Claim C6: `processTest` rejects a payload over 10 MiB with the ">10MB"
error and emits no row; a payload at or below the cap proceeds to row
construction (a decodable payload yields exactly one row), flagged "<16KB"
when below 16 KiB and "4KB" when exactly 4096 bytes. -/
theorem processTest_size_checks (d : Decoder) (m : MetaFileData)
    (test : FileInfoAndData) (ty : String) :
    (test.data.length > 10 * 1024 * 1024 →
      NDT.Effect.errCount ty ">10MB" ∈ NDT.processTest d (some m) test ty ∧
      NDT.rowsOf (NDT.processTest d (some m) test ty) = []) ∧
    (test.data.length ≤ 10 * 1024 * 1024 →
      (NDT.Effect.errCount ty ">10MB" ∉ NDT.processTest d (some m) test ty) ∧
      (∀ n : Nat, d.decode test.data = some n → n ≠ 0 →
        NDT.rowsOf (NDT.processTest d (some m) test ty) =
          [{ testId := test.fn, testType := ty,
             snapIndex := NDT.finalSnapIndex (n : Int),
             metaTestName := m.TestName }]) ∧
      (test.data.length < 16 * 1024 →
        NDT.Effect.warn ty "<16KB" ∈ NDT.processTest d (some m) test ty) ∧
      (test.data.length = 4096 →
        NDT.Effect.warn ty "4KB" ∈ NDT.processTest d (some m) test ty)) := by
  constructor
  · intro hbig
    simp [NDT.processTest, NDT.rowsOf, hbig]
  · intro hle
    have hnb : ¬ (test.data.length > 10 * 1024 * 1024) := by omega
    refine ⟨?_, ?_, ?_, ?_⟩
    · simp only [NDT.processTest, hnb]
      simp
      exact not_big_errCount_mem_getAndInsertValues d m test ty ty
    · intro n hd hn
      simp only [NDT.processTest]
      rw [if_neg hnb]
      split_ifs <;> simp [NDT.rowsOf, NDT.getAndInsertValues, hd, hn]
    · intro hsm
      simp [NDT.processTest, hnb, hsm]
    · intro h4
      simp [NDT.processTest, hnb, h4]

/-- Claim C6 witness: an oversize payload is rejected with no row; a
4096-byte payload proceeds, doubly flagged, and yields one row. -/
theorem processTest_size_checks_witness :
    (NDT.Effect.errCount "c2s" ">10MB" ∈
        NDT.processTest ⟨fun _ => some 3⟩ (some ⟨"m0"⟩)
          ⟨"big.c2s_snaplog.gz", ⟨"", "", "t", "", "c2s_snaplog"⟩,
           List.replicate (10 * 1024 * 1024 + 1) 0⟩ "c2s" ∧
     NDT.rowsOf (NDT.processTest ⟨fun _ => some 3⟩ (some ⟨"m0"⟩)
          ⟨"big.c2s_snaplog.gz", ⟨"", "", "t", "", "c2s_snaplog"⟩,
           List.replicate (10 * 1024 * 1024 + 1) 0⟩ "c2s") = []) ∧
    (NDT.Effect.warn "c2s" "<16KB" ∈
        NDT.processTest ⟨fun _ => some 3⟩ (some ⟨"m0"⟩)
          ⟨"small.c2s_snaplog.gz", ⟨"", "", "t", "", "c2s_snaplog"⟩,
           List.replicate 4096 0⟩ "c2s" ∧
     NDT.Effect.warn "c2s" "4KB" ∈
        NDT.processTest ⟨fun _ => some 3⟩ (some ⟨"m0"⟩)
          ⟨"small.c2s_snaplog.gz", ⟨"", "", "t", "", "c2s_snaplog"⟩,
           List.replicate 4096 0⟩ "c2s" ∧
     NDT.rowsOf (NDT.processTest ⟨fun _ => some 3⟩ (some ⟨"m0"⟩)
          ⟨"small.c2s_snaplog.gz", ⟨"", "", "t", "", "c2s_snaplog"⟩,
           List.replicate 4096 0⟩ "c2s") =
       [{ testId := "small.c2s_snaplog.gz", testType := "c2s",
          snapIndex := NDT.finalSnapIndex ((3 : Nat) : Int),
          metaTestName := "m0" }]) := by
  constructor
  · exact (processTest_size_checks ⟨fun _ => some 3⟩ ⟨"m0"⟩
      ⟨"big.c2s_snaplog.gz", ⟨"", "", "t", "", "c2s_snaplog"⟩,
       List.replicate (10 * 1024 * 1024 + 1) 0⟩ "c2s").1
      (by show (List.replicate (10 * 1024 * 1024 + 1) (0 : Nat)).length > 10 * 1024 * 1024
          rw [List.length_replicate]
          omega)
  · have h := (processTest_size_checks ⟨fun _ => some 3⟩ ⟨"m0"⟩
      ⟨"small.c2s_snaplog.gz", ⟨"", "", "t", "", "c2s_snaplog"⟩,
       List.replicate 4096 0⟩ "c2s").2
      (by show (List.replicate 4096 (0 : Nat)).length ≤ 10 * 1024 * 1024
          rw [List.length_replicate]
          omega)
    refine ⟨h.2.2.1 ?_, h.2.2.2 ?_, h.2.1 3 rfl (by omega)⟩
    · show (List.replicate 4096 (0 : Nat)).length < 16 * 1024
      rw [List.length_replicate]
      omega
    · show (List.replicate 4096 (0 : Nat)).length = 4096
      rw [List.length_replicate]

/-- Claim C9: when a meta file arrives for the current timestamp while a
meta record is already buffered, a collision is flagged, the newer record
replaces the buffered one, and the buffered data files are processed against
the newer record (the recorded attempts carry its test name). -/
theorem meta_last_write_wins (d : Decoder) (s : State) (tf tn : String)
    (content : List Nat) (info : TestInfo) (m0 : MetaFileData)
    (hm : s.metaFile = some m0) (ht : info.time = s.timestamp)
    (hs : info.suffix = "meta") :
    (NDT.parseAndInsert d s tf tn info content).state.metaFile =
      some (processMetaFile tn content) ∧
    NDT.Effect.warn "meta" "timestamp collision" ∈
      (NDT.parseAndInsert d s tf tn info content).trace ∧
    (∀ f, s.c2s = some f →
      NDT.Effect.attempt "c2s" f.fn (processMetaFile tn content).TestName ∈
        (NDT.parseAndInsert d s tf tn info content).trace) ∧
    (∀ f, s.s2c = some f →
      NDT.Effect.attempt "s2c" f.fn (processMetaFile tn content).TestName ∈
        (NDT.parseAndInsert d s tf tn info content).trace) := by
  obtain ⟨ts, c2s, s2c, mf⟩ := s
  simp only [State.timestamp] at ht
  simp only [State.metaFile] at hm
  subst hm
  refine ⟨by simp [NDT.parseAndInsert, ht, hs], ?_, ?_, ?_⟩
  · simp [NDT.parseAndInsert, ht, hs]
  · intro f hf
    simp only [State.c2s] at hf
    subst hf
    simp [NDT.parseAndInsert, ht, hs]
    exact Or.inl (attempt_mem_processTest d (processMetaFile tn content) f "c2s")
  · intro f hf
    simp only [State.s2c] at hf
    subst hf
    simp [NDT.parseAndInsert, ht, hs]
    exact Or.inr (attempt_mem_processTest d (processMetaFile tn content) f "s2c")

/-- Claim C9 witness: at a concrete state with buffered meta and c2s file,
an incoming meta replaces the record and reprocesses the c2s file against
it. -/
theorem meta_last_write_wins_witness :
    (NDT.parseAndInsert ⟨fun _ => some 3⟩
        { timestamp := "10:00:00.0",
          c2s := some ⟨"h.c2s_snaplog.gz", ⟨"", "", "10:00:00.0", "", "c2s_snaplog"⟩, [1]⟩,
          s2c := none, metaFile := some ⟨"oldmeta"⟩ }
        "task.tgz" "newmeta.meta"
        ⟨"", "20170509", "10:00:00.0", "h:1", "meta"⟩ [7]).state.metaFile =
      some (processMetaFile "newmeta.meta" [7]) ∧
    NDT.Effect.attempt "c2s" "h.c2s_snaplog.gz" "newmeta.meta" ∈
      (NDT.parseAndInsert ⟨fun _ => some 3⟩
        { timestamp := "10:00:00.0",
          c2s := some ⟨"h.c2s_snaplog.gz", ⟨"", "", "10:00:00.0", "", "c2s_snaplog"⟩, [1]⟩,
          s2c := none, metaFile := some ⟨"oldmeta"⟩ }
        "task.tgz" "newmeta.meta"
        ⟨"", "20170509", "10:00:00.0", "h:1", "meta"⟩ [7]).trace := by
  have h := meta_last_write_wins ⟨fun _ => some 3⟩
    { timestamp := "10:00:00.0",
      c2s := some ⟨"h.c2s_snaplog.gz", ⟨"", "", "10:00:00.0", "", "c2s_snaplog"⟩, [1]⟩,
      s2c := none, metaFile := some ⟨"oldmeta"⟩ }
    "task.tgz" "newmeta.meta" [7]
    ⟨"", "20170509", "10:00:00.0", "h:1", "meta"⟩ ⟨"oldmeta"⟩ rfl rfl rfl
  exact ⟨h.1, h.2.2.1 ⟨"h.c2s_snaplog.gz", ⟨"", "", "10:00:00.0", "", "c2s_snaplog"⟩, [1]⟩ rfl⟩

/-- Claim C10: for a file whose parsed time differs from the buffered
timestamp and whose suffix is unknown, the rollover anomaly handling of the
old context still runs first and the context is reset to the new timestamp
with empty buffers; only then is the unknown-suffix error returned. -/
theorem rollover_before_suffix_routing (d : Decoder) (s : State) (tf tn : String)
    (content : List Nat) (info : TestInfo)
    (ht : info.time ≠ s.timestamp)
    (h1 : info.suffix ≠ "c2s_snaplog") (h2 : info.suffix ≠ "s2c_snaplog")
    (h3 : info.suffix ≠ "meta") (h4 : info.suffix ≠ "c2s_ndttrace")
    (h5 : info.suffix ≠ "s2c_ndttrace") (h6 : info.suffix ≠ "cputime") :
    (NDT.parseAndInsert d s tf tn info content).state =
      { timestamp := info.time, c2s := none, s2c := none, metaFile := none } ∧
    (NDT.parseAndInsert d s tf tn info content).trace =
      (NDT.handleAnomalies d s).2 ++ [NDT.Effect.testCount "unknown" "unknown suffix"] ∧
    (NDT.parseAndInsert d s tf tn info content).err =
      some ("Unknown test suffix: " ++ info.suffix) := by
  refine ⟨?_, ?_, ?_⟩ <;>
    simp [NDT.parseAndInsert, ht, h1, h2, h3, h4, h5, h6]

/-- Claim C10 witness: a file with suffix "weird" arriving for a new
timestamp flushes the old bucket (the buffered c2s is processed against a
placeholder) and resets the context before the unknown-suffix error. -/
theorem rollover_before_suffix_routing_witness :
    (NDT.parseAndInsert ⟨fun _ => some 3⟩
        { timestamp := "10:00:00.0",
          c2s := some ⟨"h.c2s_snaplog.gz", ⟨"", "", "10:00:00.0", "", "c2s_snaplog"⟩, [1]⟩,
          s2c := none, metaFile := none }
        "task.tgz" "x.weird"
        ⟨"", "20170509", "11:00:00.0", "h:1", "weird"⟩ [1]).state =
      { timestamp := "11:00:00.0", c2s := none, s2c := none, metaFile := none } ∧
    (NDT.parseAndInsert ⟨fun _ => some 3⟩
        { timestamp := "10:00:00.0",
          c2s := some ⟨"h.c2s_snaplog.gz", ⟨"", "", "10:00:00.0", "", "c2s_snaplog"⟩, [1]⟩,
          s2c := none, metaFile := none }
        "task.tgz" "x.weird"
        ⟨"", "20170509", "11:00:00.0", "h:1", "weird"⟩ [1]).trace =
      (NDT.handleAnomalies ⟨fun _ => some 3⟩
        { timestamp := "10:00:00.0",
          c2s := some ⟨"h.c2s_snaplog.gz", ⟨"", "", "10:00:00.0", "", "c2s_snaplog"⟩, [1]⟩,
          s2c := none, metaFile := none }).2 ++
        [NDT.Effect.testCount "unknown" "unknown suffix"] ∧
    (NDT.parseAndInsert ⟨fun _ => some 3⟩
        { timestamp := "10:00:00.0",
          c2s := some ⟨"h.c2s_snaplog.gz", ⟨"", "", "10:00:00.0", "", "c2s_snaplog"⟩, [1]⟩,
          s2c := none, metaFile := none }
        "task.tgz" "x.weird"
        ⟨"", "20170509", "11:00:00.0", "h:1", "weird"⟩ [1]).err =
      some ("Unknown test suffix: " ++ "weird") :=
  rollover_before_suffix_routing ⟨fun _ => some 3⟩
    { timestamp := "10:00:00.0",
      c2s := some ⟨"h.c2s_snaplog.gz", ⟨"", "", "10:00:00.0", "", "c2s_snaplog"⟩, [1]⟩,
      s2c := none, metaFile := none }
    "task.tgz" "x.weird" [1]
    ⟨"", "20170509", "11:00:00.0", "h:1", "weird"⟩
    (by decide) (by decide) (by decide) (by decide) (by decide) (by decide) (by decide)

/-- Claim C3: in the part_004 revision (the one carrying the `anomolies`
sub-record), when the old timestamp bucket rolls over with no meta record
ever buffered, an empty placeholder meta record is synthesized and every
buffered data file is processed against it, and every row emitted by that
rollover carries the `no_meta` flag.  Scenario B: a c2s file arrives for a
fresh timestamp and the next file carries a different timestamp; exactly one
row is emitted, at the rollover, flagged no_meta. -/
theorem rollover_missing_meta_flag_scenarioB
    (d : Decoder) (payload content2 : List Nat) (k : Nat)
    (fn1 tf tn2 : String) (info1 info2 : TestInfo)
    (hs1 : info1.suffix = "c2s_snaplog") (ht1 : info1.time ≠ "")
    (hlen : payload.length ≤ 10 * 1024 * 1024)
    (hdec : d.decode payload = some k)
    (ht2 : info2.time ≠ info1.time) :
    NDT4.rowsOf (NDT4.parseAndInsert d {} tf fn1 info1 payload).trace = [] ∧
    NDT4.rowsOf (NDT4.parseAndInsert d
        (NDT4.parseAndInsert d {} tf fn1 info1 payload).state
        tf tn2 info2 content2).trace =
      [{ testId := fn1, testType := "c2s", noMeta := true,
         numSnaps := if k = 2000 then none else some (k : Int) }] ∧
    (∀ s : State, s.metaFile = none →
      ∀ r ∈ NDT4.rowsOf (NDT4.handleAnomolies d s).2, r.noMeta = true) ∧
    (∀ s : State, s.metaFile = none → ∀ f, s.c2s = some f →
      NDT4.Effect.testCount "c2s" "no meta" ∈ (NDT4.handleAnomolies d s).2) ∧
    (∀ s : State, s.metaFile = none → ∀ f, s.s2c = some f →
      NDT4.Effect.testCount "s2c" "no meta" ∈ (NDT4.handleAnomolies d s).2) := by
  have hnb : ¬ (payload.length > 10 * 1024 * 1024) := by omega
  have hst : (NDT4.parseAndInsert d {} tf fn1 info1 payload).state =
      { timestamp := info1.time, c2s := some ⟨fn1, info1, payload⟩,
        s2c := none, metaFile := none } := by
    simp [NDT4.parseAndInsert, hs1, ht1]
  have hroll : NDT4.rowsOf (NDT4.handleAnomolies d
      { timestamp := info1.time, c2s := some ⟨fn1, info1, payload⟩,
        s2c := none, metaFile := none }).2 =
      [{ testId := fn1, testType := "c2s", noMeta := true,
         numSnaps := if k = 2000 then none else some (k : Int) }] := by
    simp only [NDT4.handleAnomolies, NDT4.processTest]
    rw [if_neg hnb]
    split_ifs <;> simp [NDT4.rowsOf, NDT4.getAndInsertValues, hdec] <;> assumption
  refine ⟨?_, ?_, ?_, ?_, ?_⟩
  · simp [NDT4.parseAndInsert, NDT4.handleAnomolies, NDT4.processTest,
      NDT4.rowsOf, hs1, ht1]
  · rw [hst]
    simp only [NDT4.parseAndInsert]
    split_ifs <;>
      simp_all [rowsOf4_append, rowsOf4_testCount_cons, rowsOf4_processTest_none,
        rowsOf4_nil, NDT4.processTest]
  · intro s hmf r hr
    obtain ⟨ts, c2s, s2c, mf⟩ := s
    simp only [State.metaFile] at hmf
    subst hmf
    have hplaceholder : ∀ (f : FileInfoAndData) (ty : String),
        r ∈ NDT4.rowsOf (NDT4.processTest d (some ⟨""⟩) f ty) → r.noMeta = true := by
      intro f ty hmem
      have := rows_processTest4_noMeta d ⟨""⟩ f ty r hmem
      simpa using this
    cases s2c <;> cases c2s <;>
      simp [NDT4.handleAnomolies, rowsOf4_append, rowsOf4_testCount_cons,
        rowsOf4_nil] at hr
    · exact hplaceholder _ "c2s" hr
    · exact hplaceholder _ "s2c" hr
    · rcases hr with hr | hr
      · exact hplaceholder _ "s2c" hr
      · exact hplaceholder _ "c2s" hr
  · intro s hmf f hf
    obtain ⟨ts, c2s, s2c, mf⟩ := s
    simp only [State.metaFile] at hmf
    simp only [State.c2s] at hf
    subst hmf
    subst hf
    cases s2c <;> simp [NDT4.handleAnomolies]
  · intro s hmf f hf
    obtain ⟨ts, c2s, s2c, mf⟩ := s
    simp only [State.metaFile] at hmf
    simp only [State.s2c] at hf
    subst hmf
    subst hf
    simp [NDT4.handleAnomolies]

/-- Claim C3 witness: the concrete Scenario B run with a 3-byte payload the
decoder accepts with 7 snapshots. -/
theorem rollover_missing_meta_flag_scenarioB_witness :
    NDT4.rowsOf (NDT4.parseAndInsert ⟨fun _ => some 7⟩ {} "t.tgz"
        "x.c2s_snaplog.gz" ⟨"", "", "10:00:00.1", "", "c2s_snaplog"⟩ [1, 2, 3]).trace = [] ∧
    NDT4.rowsOf (NDT4.parseAndInsert ⟨fun _ => some 7⟩
        (NDT4.parseAndInsert ⟨fun _ => some 7⟩ {} "t.tgz"
          "x.c2s_snaplog.gz" ⟨"", "", "10:00:00.1", "", "c2s_snaplog"⟩ [1, 2, 3]).state
        "t.tgz" "y.meta" ⟨"", "", "10:00:05.2", "", "meta"⟩ []).trace =
      [{ testId := "x.c2s_snaplog.gz", testType := "c2s", noMeta := true,
         numSnaps := if (7 : Nat) = 2000 then none else some ((7 : Nat) : Int) }] ∧
    (∀ s : State, s.metaFile = none →
      ∀ r ∈ NDT4.rowsOf (NDT4.handleAnomolies ⟨fun _ => some 7⟩ s).2, r.noMeta = true) ∧
    (∀ s : State, s.metaFile = none → ∀ f, s.c2s = some f →
      NDT4.Effect.testCount "c2s" "no meta" ∈
        (NDT4.handleAnomolies ⟨fun _ => some 7⟩ s).2) ∧
    (∀ s : State, s.metaFile = none → ∀ f, s.s2c = some f →
      NDT4.Effect.testCount "s2c" "no meta" ∈
        (NDT4.handleAnomolies ⟨fun _ => some 7⟩ s).2) :=
  rollover_missing_meta_flag_scenarioB ⟨fun _ => some 7⟩ [1, 2, 3] [] 7
    "x.c2s_snaplog.gz" "t.tgz" "y.meta"
    ⟨"", "", "10:00:00.1", "", "c2s_snaplog"⟩ ⟨"", "", "10:00:05.2", "", "meta"⟩
    rfl (by decide) (by decide) rfl (by decide)

end Etl
